import Mathlib

/-!
Shallow embedding of the wraith-camera-module core (src/src): the per-stage
frame-skip/cache schedulers (face_recognition_module.py,
object_detection_module.py), the multi-stage pipeline
(main.py MultiDetectionSystem.process_frame / run), the HTTP MJPEG reader
(http_camera_handler.py), and the face store (face_recognition_module.py).
External capabilities (DeepFace, YOLO, EasyOCR, cv2 decoding) are opaque
oracles: their per-call results are inputs to the embedded functions.
-/

namespace WraithCam

/-! ## Face recognition stage (face_recognition_module.py) -/

/-- A face bounding box as stored in the detection dictionaries
(keys x1, y1, x2, y2). -/
structure FaceLoc where
  x1 : Int
  y1 : Int
  x2 : Int
  y2 : Int
deriving DecidableEq, Repr

/-- Mutable scheduling state of FaceRecognitionSystem: process_frame_count,
frame_skip (5 in the source), cached_face_locations, cached_face_names,
cache_valid_frames. -/
structure FaceState where
  processFrameCount : Nat
  frameSkip : Nat
  cachedFaceLocations : List FaceLoc
  cachedFaceNames : List String
  cacheValidFrames : Nat
deriving DecidableEq, Repr

/-- FaceRecognitionSystem state right after __init__ (frame_skip = 5,
empty caches, counters zero). -/
def faceInit : FaceState :=
  { processFrameCount := 0
    frameSkip := 5
    cachedFaceLocations := []
    cachedFaceNames := []
    cacheValidFrames := 0 }

/-- Oracle result of one live invocation of the detection capability inside
FaceRecognitionSystem.process_frame: the detect_faces output on the
half-size frame, and the names recognize_faces (after the unknown-face
callback substitutions) assigns to them. -/
structure FaceLive where
  locations : List FaceLoc
  names : List String
deriving DecidableEq, Repr

/-- Scaling of a face location back to the original frame size
(the *= 2 loop in process_frame). -/
def scaleLoc (l : FaceLoc) : FaceLoc :=
  { x1 := l.x1 * 2, y1 := l.y1 * 2, x2 := l.x2 * 2, y2 := l.y2 * 2 }

/-- Result of one FaceRecognitionSystem.process_frame call: the returned
(face_locations, face_names) pair, plus whether the live detection path
ran (detect_faces was invoked) on this call. -/
structure FaceResult where
  locations : List FaceLoc
  names : List String
  liveInvoked : Bool
deriving DecidableEq, Repr

/-- FaceRecognitionSystem.process_frame: increment process_frame_count; on a
skipped frame return the cache if cache_valid_frames > 0 (decrementing it)
else ([], []); on a live frame run detection — empty result clears the
cache, a non-empty result is scaled, cached, and cache_valid_frames is
reset to frame_skip - 1. -/
def FaceState.processFrame (s : FaceState) (live : FaceLive) :
    FaceState × FaceResult :=
  let n := s.processFrameCount + 1
  let s1 := { s with processFrameCount := n }
  if n % s1.frameSkip ≠ 0 then
    if s1.cacheValidFrames > 0 then
      ({ s1 with cacheValidFrames := s1.cacheValidFrames - 1 },
       { locations := s1.cachedFaceLocations
         names := s1.cachedFaceNames
         liveInvoked := false })
    else
      (s1, { locations := [], names := [], liveInvoked := false })
  else
    if live.locations = [] then
      ({ s1 with cachedFaceLocations := []
                 cachedFaceNames := []
                 cacheValidFrames := 0 },
       { locations := [], names := [], liveInvoked := true })
    else
      let locs := live.locations.map scaleLoc
      ({ s1 with cachedFaceLocations := locs
                 cachedFaceNames := live.names
                 cacheValidFrames := s1.frameSkip - 1 },
       { locations := locs, names := live.names, liveInvoked := true })

/-! ## Object detection stage (object_detection_module.py) -/

/-- An object detection dictionary (the fields the scheduler logic touches;
box, confidence and class data are opaque payload here). -/
structure Detection where
  x1 : Int
  y1 : Int
  x2 : Int
  y2 : Int
  classId : Nat
  className : String
deriving DecidableEq, Repr

/-- Mutable scheduling state of ObjectDetectionSystem: process_frame_count,
frame_skip (3 in the source), cached_detections, and whether cached_frame
is not None. -/
structure ObjState where
  processFrameCount : Nat
  frameSkip : Nat
  cachedDetections : List Detection
  cachedFramePresent : Bool
deriving DecidableEq, Repr

/-- ObjectDetectionSystem state right after __init__ (frame_skip = 3,
empty cache, cached_frame = None). -/
def objInit : ObjState :=
  { processFrameCount := 0
    frameSkip := 3
    cachedDetections := []
    cachedFramePresent := false }

/-- Result of one ObjectDetectionSystem.detect_objects call: the returned
detections and whether the live inference path ran on this call. -/
structure ObjResult where
  detections : List Detection
  liveInvoked : Bool
deriving DecidableEq, Repr

/-- ObjectDetectionSystem.detect_objects: increment process_frame_count; on a
skipped frame return cached_detections when cached_frame is present, else
([], frame); on a live frame run inference — `some ds` is the model's
detection list (cached together with a copy of the frame), `none` means
the inference raised and the internal except returns ([], frame) without
touching the cache. -/
def ObjState.detectObjects (s : ObjState) (infer : Option (List Detection)) :
    ObjState × ObjResult :=
  let n := s.processFrameCount + 1
  let s1 := { s with processFrameCount := n }
  if n % s1.frameSkip ≠ 0 then
    if s1.cachedFramePresent then
      (s1, { detections := s1.cachedDetections, liveInvoked := false })
    else
      (s1, { detections := [], liveInvoked := false })
  else
    match infer with
    | some ds =>
        ({ s1 with cachedDetections := ds, cachedFramePresent := true },
         { detections := ds, liveInvoked := true })
    | none =>
        (s1, { detections := [], liveInvoked := true })

/-- Number of live inference invocations over a sequence of
detect_objects calls. -/
def objLiveCount : ObjState → List (Option (List Detection)) → Nat
  | _, [] => 0
  | s, i :: is =>
      let r := s.detectObjects i
      (if r.2.liveInvoked then 1 else 0) + objLiveCount r.1 is

/-! ## Scheduling lemmas for the two stages -/

lemma detectObjects_processFrameCount (s : ObjState) (i : Option (List Detection)) :
    (s.detectObjects i).1.processFrameCount = s.processFrameCount + 1 := by
  unfold ObjState.detectObjects
  dsimp only
  split
  · split <;> rfl
  · cases i <;> rfl

lemma detectObjects_frameSkip (s : ObjState) (i : Option (List Detection)) :
    (s.detectObjects i).1.frameSkip = s.frameSkip := by
  unfold ObjState.detectObjects
  dsimp only
  split
  · split <;> rfl
  · cases i <;> rfl

lemma detectObjects_liveInvoked (s : ObjState) (i : Option (List Detection)) :
    (s.detectObjects i).2.liveInvoked = true ↔
      (s.processFrameCount + 1) % s.frameSkip = 0 := by
  unfold ObjState.detectObjects
  dsimp only
  split
  · rename_i h
    split <;> simpa using h
  · rename_i h
    cases i <;> simpa using not_not.mp h

lemma faceProcessFrame_liveInvoked (s : FaceState) (l : FaceLive) :
    (s.processFrame l).2.liveInvoked = true ↔
      (s.processFrameCount + 1) % s.frameSkip = 0 := by
  unfold FaceState.processFrame
  dsimp only
  split
  · rename_i h
    split <;> simpa using h
  · rename_i h
    split <;> simpa using not_not.mp h

lemma objLiveCount_add_div (is : List (Option (List Detection))) :
    ∀ s : ObjState, 0 < s.frameSkip →
      objLiveCount s is + s.processFrameCount / s.frameSkip =
        (s.processFrameCount + is.length) / s.frameSkip := by
  induction is with
  | nil => intro s _; simp [objLiveCount]
  | cons i is ih =>
      intro s hk
      have hc := detectObjects_processFrameCount s i
      have hs := detectObjects_frameSkip s i
      have hl := detectObjects_liveInvoked s i
      have hk' : 0 < (s.detectObjects i).1.frameSkip := hs ▸ hk
      have ihx := ih (s.detectObjects i).1 hk'
      rw [hc, hs] at ihx
      have hstep : (if (s.detectObjects i).2.liveInvoked then 1 else 0)
          + s.processFrameCount / s.frameSkip
          = (s.processFrameCount + 1) / s.frameSkip := by
        rw [Nat.succ_div]
        by_cases hdvd : s.frameSkip ∣ s.processFrameCount + 1
        · have : (s.processFrameCount + 1) % s.frameSkip = 0 :=
            Nat.dvd_iff_mod_eq_zero.mp hdvd
          simp [hl.mpr this, hdvd, Nat.add_comm]
        · have : ¬ (s.processFrameCount + 1) % s.frameSkip = 0 := by
            intro h0
            exact hdvd (Nat.dvd_iff_mod_eq_zero.mpr h0)
          have hlf : (s.detectObjects i).2.liveInvoked = false := by
            cases hb : (s.detectObjects i).2.liveInvoked with
            | false => rfl
            | true => exact absurd (hl.mp hb) this
          simp [hlf, hdvd]
      calc objLiveCount s (i :: is) + s.processFrameCount / s.frameSkip
          = objLiveCount (s.detectObjects i).1 is
              + ((if (s.detectObjects i).2.liveInvoked then 1 else 0)
                 + s.processFrameCount / s.frameSkip) := by
            simp [objLiveCount]; ring
        _ = objLiveCount (s.detectObjects i).1 is
              + (s.processFrameCount + 1) / s.frameSkip := by rw [hstep]
        _ = (s.processFrameCount + 1 + is.length) / s.frameSkip := ihx
        _ = (s.processFrameCount + (is.length + 1)) / s.frameSkip := by
            ring_nf

/-- Claim C1: each stage's live detection runs exactly on the calls whose
incremented per-stage counter is divisible by the stage's skip interval
(5 for face recognition, 3 for object detection); other calls return the
cache without a live invocation, and any 100 consecutive object-detection
calls from the initial state perform exactly 33 live invocations. -/
theorem claim_C1_skip_schedule :
    faceInit.frameSkip = 5 ∧ objInit.frameSkip = 3 ∧
    (∀ (s : ObjState) (i : Option (List Detection)),
      ((s.detectObjects i).2.liveInvoked = true ↔
        (s.processFrameCount + 1) % s.frameSkip = 0)) ∧
    (∀ (s : FaceState) (l : FaceLive),
      ((s.processFrame l).2.liveInvoked = true ↔
        (s.processFrameCount + 1) % s.frameSkip = 0)) ∧
    (∀ (s : FaceState) (l : FaceLive),
      (s.processFrameCount + 1) % s.frameSkip ≠ 0 →
      0 < s.cacheValidFrames →
        (s.processFrame l).2.locations = s.cachedFaceLocations ∧
        (s.processFrame l).2.names = s.cachedFaceNames ∧
        (s.processFrame l).1.cachedFaceLocations = s.cachedFaceLocations ∧
        (s.processFrame l).1.cachedFaceNames = s.cachedFaceNames ∧
        (s.processFrame l).1.cacheValidFrames = s.cacheValidFrames - 1) ∧
    (∀ (s : FaceState) (l : FaceLive),
      (s.processFrameCount + 1) % s.frameSkip ≠ 0 →
      s.cacheValidFrames = 0 →
        (s.processFrame l).2.locations = [] ∧
        (s.processFrame l).2.names = []) ∧
    (∀ (s : ObjState) (i : Option (List Detection)),
      (s.processFrameCount + 1) % s.frameSkip ≠ 0 →
        (s.detectObjects i).2.detections =
          (if s.cachedFramePresent then s.cachedDetections else [])) ∧
    (∀ (is : List (Option (List Detection))), is.length = 100 →
      objLiveCount objInit is = 33) := by
  refine ⟨rfl, rfl, detectObjects_liveInvoked, faceProcessFrame_liveInvoked,
    ?_, ?_, ?_, ?_⟩
  · intro s l hskip hcv
    unfold FaceState.processFrame
    simp [hskip, hcv]
  · intro s l hskip hcv
    unfold FaceState.processFrame
    simp [hskip, hcv]
  · intro s i hskip
    unfold ObjState.detectObjects
    dsimp only
    rw [if_pos (by simpa using hskip)]
    split <;> simp_all
  · intro is hlen
    have h := objLiveCount_add_div is objInit (by decide)
    rw [hlen] at h
    simpa using h

/-- Witness for claim C1: with a concrete run of 100 calls whose live
inferences all return no detections, the schedule performs 33 live
invocations; a concrete skipped face-stage call with a valid cache returns
the cached locations and names while decrementing cache_valid_frames, a
skipped face-stage call with no valid cache returns empty, and a concrete
skipped object-stage call returns its (empty) cache. -/
theorem claim_C1_skip_schedule_witness :
    objLiveCount objInit (List.replicate 100 (some [])) = 33 ∧
    (({ faceInit with
        processFrameCount := 5
        cachedFaceLocations := [⟨2, 4, 6, 8⟩]
        cachedFaceNames := ["ana"]
        cacheValidFrames := 4 } : FaceState).processFrame
      { locations := [], names := [] }).2.locations = [⟨2, 4, 6, 8⟩] ∧
    (({ faceInit with
        processFrameCount := 5
        cachedFaceLocations := [⟨2, 4, 6, 8⟩]
        cachedFaceNames := ["ana"]
        cacheValidFrames := 4 } : FaceState).processFrame
      { locations := [], names := [] }).1.cacheValidFrames = 3 ∧
    (faceInit.processFrame { locations := [], names := [] }).2.locations
      = [] ∧
    (objInit.detectObjects none).2.detections = [] := by
  refine ⟨claim_C1_skip_schedule.2.2.2.2.2.2.2 _ (by simp), ?_, ?_, ?_, ?_⟩
  · exact (claim_C1_skip_schedule.2.2.2.2.1
      { faceInit with
        processFrameCount := 5
        cachedFaceLocations := [⟨2, 4, 6, 8⟩]
        cachedFaceNames := ["ana"]
        cacheValidFrames := 4 }
      { locations := [], names := [] } (by decide) (by decide)).1
  · exact (claim_C1_skip_schedule.2.2.2.2.1
      { faceInit with
        processFrameCount := 5
        cachedFaceLocations := [⟨2, 4, 6, 8⟩]
        cachedFaceNames := ["ana"]
        cacheValidFrames := 4 }
      { locations := [], names := [] } (by decide) (by decide)).2.2.2.2
  · exact (claim_C1_skip_schedule.2.2.2.2.2.1 faceInit
      { locations := [], names := [] } (by decide) (by decide)).1
  · have h := claim_C1_skip_schedule.2.2.2.2.2.2.1 objInit none (by decide)
    simpa using h

/-- Claim C2: after a live invocation returning zero detections the stage
cache is cleared (face: locations, names and cache_valid_frames all reset;
object: cached_detections replaced by the empty list), and subsequent
skipped frames return an empty result until the next live invocation;
after a live invocation returning a non-empty result the cache is replaced
by that result and the face stage's cache_valid_frames is reset to
frame_skip - 1. -/
theorem claim_C2_cache_dynamics :
    (∀ (s : FaceState) (l : FaceLive),
      (s.processFrameCount + 1) % s.frameSkip = 0 → l.locations = [] →
        (s.processFrame l).1.cachedFaceLocations = [] ∧
        (s.processFrame l).1.cachedFaceNames = [] ∧
        (s.processFrame l).1.cacheValidFrames = 0 ∧
        (s.processFrame l).2.locations = [] ∧
        (s.processFrame l).2.names = []) ∧
    (∀ (s : FaceState) (l : FaceLive),
      s.cachedFaceLocations = [] → s.cachedFaceNames = [] →
      s.cacheValidFrames = 0 →
      (s.processFrameCount + 1) % s.frameSkip ≠ 0 →
        (s.processFrame l).2.locations = [] ∧
        (s.processFrame l).2.names = [] ∧
        (s.processFrame l).1.cachedFaceLocations = [] ∧
        (s.processFrame l).1.cachedFaceNames = [] ∧
        (s.processFrame l).1.cacheValidFrames = 0) ∧
    (∀ (s : FaceState) (l : FaceLive),
      (s.processFrameCount + 1) % s.frameSkip = 0 → l.locations ≠ [] →
        (s.processFrame l).1.cachedFaceLocations = l.locations.map scaleLoc ∧
        (s.processFrame l).1.cachedFaceNames = l.names ∧
        (s.processFrame l).1.cacheValidFrames = s.frameSkip - 1) ∧
    (∀ (s : ObjState) (ds : List Detection),
      (s.processFrameCount + 1) % s.frameSkip = 0 →
        (s.detectObjects (some ds)).1.cachedDetections = ds ∧
        (s.detectObjects (some ds)).1.cachedFramePresent = true) ∧
    (∀ (s : ObjState) (i : Option (List Detection)),
      s.cachedDetections = [] → s.cachedFramePresent = true →
      (s.processFrameCount + 1) % s.frameSkip ≠ 0 →
        (s.detectObjects i).2.detections = [] ∧
        (s.detectObjects i).1.cachedDetections = []) := by
  refine ⟨?_, ?_, ?_, ?_, ?_⟩
  · intro s l hlive hempty
    unfold FaceState.processFrame
    simp [hlive, hempty]
  · intro s l hcl hcn hcv hskip
    unfold FaceState.processFrame
    simp [hskip, hcl, hcn, hcv]
  · intro s l hlive hne
    unfold FaceState.processFrame
    simp [hlive, hne]
  · intro s ds hlive
    unfold ObjState.detectObjects
    simp [hlive]
  · intro s i hcd hcf hskip
    unfold ObjState.detectObjects
    simp [hskip, hcd, hcf]

/-- Witness for claim C2: concrete face and object states on a live frame
with an empty result clear their caches, and a concrete skipped frame after
that stays empty. -/
theorem claim_C2_cache_dynamics_witness :
    (({ faceInit with processFrameCount := 4 }.processFrame
        { locations := [], names := [] }).1.cachedFaceLocations = []) ∧
    (({ faceInit with
        processFrameCount := 4
        cachedFaceLocations := []
        cachedFaceNames := []
        cacheValidFrames := 0 } : FaceState).processFrame
        { locations := [⟨1, 2, 3, 4⟩], names := ["alice"] }).1.cacheValidFrames = 4 ∧
    (({ objInit with processFrameCount := 2 }.detectObjects
        (some [])).1.cachedDetections = []) ∧
    ((({ objInit with cachedFramePresent := true } : ObjState).detectObjects
        none).2.detections = []) := by
  refine ⟨?_, ?_, ?_, ?_⟩
  · exact (claim_C2_cache_dynamics.1
      { faceInit with processFrameCount := 4 }
      { locations := [], names := [] } (by decide) (by decide)).1
  · exact (claim_C2_cache_dynamics.2.2.1
      { faceInit with
        processFrameCount := 4
        cachedFaceLocations := []
        cachedFaceNames := []
        cacheValidFrames := 0 }
      { locations := [⟨1, 2, 3, 4⟩], names := ["alice"] }
      (by decide) (by decide)).2.2
  · exact (claim_C2_cache_dynamics.2.2.2.1
      { objInit with processFrameCount := 2 } [] (by decide)).1
  · exact (claim_C2_cache_dynamics.2.2.2.2
      { objInit with cachedFramePresent := true } none
      (by decide) (by decide) (by decide)).1

/-! ## Multi-stage pipeline (main.py MultiDetectionSystem.process_frame) -/

/-- An opaque image frame token; drawing operations are opaque
transformations on it. -/
abbrev Frame := Nat

/-- Outcome of invoking a stage capability: a normal return value, or a
raised exception (of arbitrary message). -/
inductive StageOutcome (α : Type) where
  | ok (a : α)
  | raised (msg : String)
deriving DecidableEq, Repr

/-- The enable flags and module handles MultiDetectionSystem.process_frame
consults (`self.enable_X and self.X_system`). -/
structure MdsConfig where
  enableFaceRecognition : Bool
  faceSystemPresent : Bool
  enableObjectDetection : Bool
  objectSystemPresent : Bool
  enableOcr : Bool
  ocrSystemPresent : Bool
deriving DecidableEq, Repr

/-- The face-recognition block of MultiDetectionSystem.process_frame: call
face_system.process_frame inside try/except; on success with a non-empty
location list, draw the faces onto the frame; an exception leaves the
frame untouched. -/
def faceBlock (cfg : MdsConfig)
    (faceStage : Frame → StageOutcome (List FaceLoc × List String))
    (drawFaces : Frame → List FaceLoc → List String → Frame)
    (frame : Frame) : Frame :=
  if cfg.enableFaceRecognition && cfg.faceSystemPresent then
    match faceStage frame with
    | .ok (locs, names) =>
        if locs ≠ [] then drawFaces frame locs names else frame
    | .raised _ => frame
  else frame

/-- The object-detection block of MultiDetectionSystem.process_frame: call
object_system.process_frame inside try/except, rebinding frame to the
annotated frame on success; an exception leaves the frame untouched. -/
def objBlock (cfg : MdsConfig)
    (objStage : Frame → StageOutcome (List Detection × Frame))
    (frame : Frame) : Frame :=
  if cfg.enableObjectDetection && cfg.objectSystemPresent then
    match objStage frame with
    | .ok (_, annotated) => annotated
    | .raised _ => frame
  else frame

/-- The OCR block of MultiDetectionSystem.process_frame: call
ocr_system.process_frame inside try/except, rebinding frame to the
annotated frame on success; an exception leaves the frame untouched. -/
def ocrBlock (cfg : MdsConfig)
    (ocrStage : Frame → StageOutcome (List Detection × Frame))
    (frame : Frame) : Frame :=
  if cfg.enableOcr && cfg.ocrSystemPresent then
    match ocrStage frame with
    | .ok (_, annotated) => annotated
    | .raised _ => frame
  else frame

/-- MultiDetectionSystem.process_frame: run the face-recognition block,
then the object-detection block, then the OCR block, each guarded by its
own try/except, and return the resulting frame. -/
def mdsProcessFrame (cfg : MdsConfig)
    (faceStage : Frame → StageOutcome (List FaceLoc × List String))
    (drawFaces : Frame → List FaceLoc → List String → Frame)
    (objStage ocrStage : Frame → StageOutcome (List Detection × Frame))
    (frame : Frame) : Frame :=
  ocrBlock cfg ocrStage (objBlock cfg objStage (faceBlock cfg faceStage drawFaces frame))

/-- Claim C3: mdsProcessFrame always runs the three stage blocks in the
fixed order face recognition, object detection, OCR, and a stage that
raises behaves exactly like a stage returning an empty result for that
frame only: the other stages still run on the same frame value and the
call returns normally (so the main loop is not aborted). -/
theorem claim_C3_stage_isolation_and_order :
    (∀ (cfg : MdsConfig) faceStage drawFaces objStage ocrStage (frame : Frame),
      mdsProcessFrame cfg faceStage drawFaces objStage ocrStage frame =
        ocrBlock cfg ocrStage
          (objBlock cfg objStage (faceBlock cfg faceStage drawFaces frame))) ∧
    (∀ (cfg : MdsConfig) (msg : String) drawFaces objStage ocrStage (frame : Frame),
      mdsProcessFrame cfg (fun _ => .raised msg) drawFaces objStage ocrStage frame =
        mdsProcessFrame cfg (fun _ => .ok ([], [])) drawFaces objStage ocrStage frame) ∧
    (∀ (cfg : MdsConfig) (msg : String) faceStage drawFaces ocrStage (frame : Frame),
      mdsProcessFrame cfg faceStage drawFaces (fun _ => .raised msg) ocrStage frame =
        mdsProcessFrame cfg faceStage drawFaces (fun f => .ok ([], f)) ocrStage frame) ∧
    (∀ (cfg : MdsConfig) (msg : String) faceStage drawFaces objStage (frame : Frame),
      mdsProcessFrame cfg faceStage drawFaces objStage (fun _ => .raised msg) frame =
        mdsProcessFrame cfg faceStage drawFaces objStage (fun f => .ok ([], f)) frame) := by
  refine ⟨fun _ _ _ _ _ _ => rfl, ?_, ?_, ?_⟩
  · intro cfg msg drawFaces objStage ocrStage frame
    unfold mdsProcessFrame faceBlock
    split <;> simp
  · intro cfg msg faceStage drawFaces ocrStage frame
    unfold mdsProcessFrame objBlock
    split <;> simp
  · intro cfg msg faceStage drawFaces objStage frame
    unfold mdsProcessFrame ocrBlock
    split <;> simp

/-! ## Main loop (main.py MultiDetectionSystem.run) -/

/-- The keyboard command read by cv2.waitKey in one loop iteration. -/
inductive KeyCmd where
  | quit
  | save
  | toggleOcr
  | other
deriving DecidableEq, Repr

/-- External input to one iteration of the main loop: either a frame pull
(success flag, the frame's mean grayscale brightness, the key pressed this
iteration), a KeyboardInterrupt, or an unhandled exception raised inside
the iteration. -/
inductive IterEvent where
  | pull (ok : Bool) (brightness : ℚ) (key : KeyCmd)
  | interrupt
  | raiseExn (msg : String)
deriving DecidableEq, Repr

/-- How the main loop ended. -/
inductive ExitReason where
  | quitKey
  | errorBudget
  | interrupted
  | exn
  | inputEnded
deriving DecidableEq, Repr

/-- Observable side effects emitted by the loop body and the cleanup path. -/
inductive OutEvent where
  | blackFrameWarning
  | frameSaved
  | capStop
  | capRelease
  | httpStop
  | saveEncodingsCall
deriving DecidableEq, Repr

/-- Loop-local counters of MultiDetectionSystem.run: frame_errors,
successful_frames, black_frame_count, plus the toggleable enable_ocr flag
and the processed frame_count. -/
structure LoopState where
  frameErrors : Nat
  successfulFrames : Nat
  blackFrameCount : Nat
  enableOcr : Bool
  frameCount : Nat
deriving DecidableEq, Repr

/-- max_frame_errors in MultiDetectionSystem.run. -/
def maxFrameErrors : Nat := 150

/-- The black-frame detection block: brightness below 10 increments
black_frame_count; past 30 it emits the codec warning and resets; a bright
frame resets the streak. Returns (new streak, warning emitted). -/
def blackFrameStep (bc : Nat) (brightness : ℚ) : Nat × Bool :=
  if brightness < 10 then
    if bc + 1 > 30 then (0, true) else (bc + 1, false)
  else (0, false)

/-- Result of one loop iteration: continue with a new state, or leave the
loop for the given reason; either way carrying the emitted events. -/
inductive StepResult where
  | cont (s : LoopState) (evs : List OutEvent)
  | halt (r : ExitReason) (evs : List OutEvent)
deriving DecidableEq, Repr

/-- Whether a step continued the loop. -/
def StepResult.isCont : StepResult → Bool
  | .cont _ _ => true
  | .halt _ _ => false

/-- One iteration of the while-loop body in MultiDetectionSystem.run:
a failed pull increments frame_errors and breaks once it exceeds
max_frame_errors; a successful pull resets frame_errors, counts the frame,
runs black-frame detection, discards the first 10 frames as warm-up, then
processes the frame and dispatches the pressed key (q breaks, s saves,
t toggles OCR). KeyboardInterrupt and unhandled exceptions leave the loop
with their own reasons. -/
def runIter (s : LoopState) (e : IterEvent) : StepResult :=
  match e with
  | .interrupt => .halt .interrupted []
  | .raiseExn _ => .halt .exn []
  | .pull ok brightness key =>
      if ok then
        let sOk := { s with
          frameErrors := 0
          successfulFrames := s.successfulFrames + 1 }
        let bf := blackFrameStep sOk.blackFrameCount brightness
        let sBlack := { sOk with blackFrameCount := bf.1 }
        let evs := if bf.2 then [OutEvent.blackFrameWarning] else []
        if sBlack.successfulFrames < 10 then
          .cont sBlack evs
        else
          let sProc := { sBlack with frameCount := sBlack.frameCount + 1 }
          match key with
          | .quit => .halt .quitKey evs
          | .save => .cont sProc (evs ++ [OutEvent.frameSaved])
          | .toggleOcr => .cont { sProc with enableOcr := !sProc.enableOcr } evs
          | .other => .cont sProc evs
      else
        if s.frameErrors + 1 > maxFrameErrors then
          .halt .errorBudget []
        else
          .cont { s with frameErrors := s.frameErrors + 1 } []

/-- The while-loop of MultiDetectionSystem.run over a list of iteration
inputs; an exhausted input list is reported as inputEnded. -/
def runLoop : LoopState → List IterEvent → ExitReason × List OutEvent
  | _, [] => (.inputEnded, [])
  | s, e :: es =>
      match runIter s e with
      | .cont s1 evs =>
          let r := runLoop s1 es
          (r.1, evs ++ r.2)
      | .halt r evs => (r, evs)

/-- Loop counters at loop entry in run. -/
def loopInit : LoopState :=
  { frameErrors := 0
    successfulFrames := 0
    blackFrameCount := 0
    enableOcr := false
    frameCount := 0 }

/-- What capture object run holds when the loop is entered: a
ThreadedCameraReader (local webcam), a plain cv2.VideoCapture (RTSP), or
none (HTTP handler only). -/
inductive CapKind where
  | threadedReader
  | videoCapture
deriving DecidableEq, Repr

/-- The resources held by MultiDetectionSystem.run when the loop starts. -/
structure Session where
  cap : Option CapKind
  httpPresent : Bool
  facePresent : Bool
deriving DecidableEq, Repr

/-- The finally-block of MultiDetectionSystem.run: stop or release the
capture object if present, stop the HTTP handler if present, and save the
face encodings if the face system exists. -/
def cleanupEvents (sess : Session) : List OutEvent :=
  (match sess.cap with
   | some .threadedReader => [OutEvent.capStop]
   | some .videoCapture => [OutEvent.capRelease]
   | none => []) ++
  (if sess.httpPresent then [OutEvent.httpStop] else []) ++
  (if sess.facePresent then [OutEvent.saveEncodingsCall] else [])

/-- MultiDetectionSystem.run from loop entry: the try-block loop followed
unconditionally by the finally-block cleanup, whatever ended the loop. -/
def runSession (sess : Session) (s0 : LoopState) (events : List IterEvent) :
    ExitReason × List OutEvent :=
  let r := runLoop s0 events
  (r.1, r.2 ++ cleanupEvents sess)

/-- The events a step carries, whether it continued or halted. -/
def StepResult.events : StepResult → List OutEvent
  | .cont _ evs => evs
  | .halt _ evs => evs

/-- Events belonging to the cleanup path rather than the loop body. -/
def isCleanupEvent : OutEvent → Bool
  | .capStop => true
  | .capRelease => true
  | .httpStop => true
  | .saveEncodingsCall => true
  | _ => false

lemma runIter_events_clean (s : LoopState) (e : IterEvent) :
    ∀ ev ∈ (runIter s e).events, isCleanupEvent ev = false := by
  cases e with
  | interrupt => intro ev h; simp [runIter, StepResult.events] at h
  | raiseExn m => intro ev h; simp [runIter, StepResult.events] at h
  | pull ok b k =>
      intro ev h
      unfold runIter at h
      dsimp only at h
      split at h
      · split at h
        · split at h <;> simp only [StepResult.events] at h <;>
            simp at h <;> subst h <;> rfl
        · rename_i hk
          cases k <;> simp only [StepResult.events] at h <;>
            split at h <;>
            (try simp at h) <;>
            first
              | (subst h; rfl)
              | (rcases h with h | h <;> subst h <;> rfl)
      · split at h <;>
          simp only [StepResult.events] at h <;> simp at h

lemma runLoop_events_clean (events : List IterEvent) :
    ∀ s : LoopState, ∀ ev ∈ (runLoop s events).2, isCleanupEvent ev = false := by
  induction events with
  | nil => intro s ev h; simp [runLoop] at h
  | cons e es ih =>
      intro s ev h
      unfold runLoop at h
      dsimp only at h
      rcases hstep : runIter s e with ⟨s1, evs⟩ | ⟨r, evs⟩
      · rw [hstep] at h
        dsimp only at h
        rcases List.mem_append.mp h with h1 | h2
        · have := runIter_events_clean s e ev
          rw [hstep] at this
          exact this h1
        · exact ih s1 ev h2
      · rw [hstep] at h
        dsimp only at h
        have := runIter_events_clean s e ev
        rw [hstep] at this
        exact this h

/-- Claim C4: however the loop ends, the finally-block cleanup events each
appear exactly once in the session trace — the capture object is stopped
or released exactly once when present, the HTTP handler is stopped exactly
once when present, and save_encodings runs exactly once when the face
system exists; and each of the four termination modes (quit key, exhausted
frame-error budget, KeyboardInterrupt, unhandled exception) is realized by
a concrete run. -/
theorem claim_C4_cleanup_exactly_once :
    (∀ (sess : Session) (s0 : LoopState) (events : List IterEvent),
      (runSession sess s0 events).2.count OutEvent.capStop
        + (runSession sess s0 events).2.count OutEvent.capRelease
        = (if sess.cap.isSome then 1 else 0) ∧
      (runSession sess s0 events).2.count OutEvent.httpStop
        = (if sess.httpPresent then 1 else 0) ∧
      (runSession sess s0 events).2.count OutEvent.saveEncodingsCall
        = (if sess.facePresent then 1 else 0)) ∧
    (runLoop loopInit (List.replicate 10 (IterEvent.pull true 100 .other)
        ++ [IterEvent.pull true 100 .quit])).1 = .quitKey ∧
    (runLoop loopInit (List.replicate 151 (IterEvent.pull false 100 .other))).1
        = .errorBudget ∧
    (runLoop loopInit [IterEvent.interrupt]).1 = .interrupted ∧
    (runLoop loopInit [IterEvent.raiseExn "camera gone"]).1 = .exn := by
  refine ⟨?_, by decide, by decide, by decide, by decide⟩
  intro sess s0 events
  have hclean := runLoop_events_clean events s0
  have hzero : ∀ ev : OutEvent, isCleanupEvent ev = true →
      (runLoop s0 events).2.count ev = 0 := by
    intro ev hev
    rw [List.count_eq_zero]
    intro hmem
    rw [hclean ev hmem] at hev
    exact Bool.false_ne_true hev
  have hsplit : ∀ ev : OutEvent,
      (runSession sess s0 events).2.count ev =
        (runLoop s0 events).2.count ev + (cleanupEvents sess).count ev := by
    intro ev
    simp [runSession, List.count_append]
  refine ⟨?_, ?_, ?_⟩
  · rw [hsplit, hsplit, hzero OutEvent.capStop rfl, hzero OutEvent.capRelease rfl]
    rcases sess with ⟨cap, http, face⟩
    rcases cap with _ | k
    · cases http <;> cases face <;> simp [cleanupEvents]
    · cases k <;> cases http <;> cases face <;> simp [cleanupEvents]
  · rw [hsplit, hzero OutEvent.httpStop rfl]
    rcases sess with ⟨cap, http, face⟩
    rcases cap with _ | k
    · cases http <;> cases face <;> simp [cleanupEvents]
    · cases k <;> cases http <;> cases face <;> simp [cleanupEvents]
  · rw [hsplit, hzero OutEvent.saveEncodingsCall rfl]
    rcases sess with ⟨cap, http, face⟩
    rcases cap with _ | k
    · cases http <;> cases face <;> simp [cleanupEvents]
    · cases k <;> cases http <;> cases face <;> simp [cleanupEvents]

lemma runIter_fail (s : LoopState) (b : ℚ) (k : KeyCmd) :
    runIter s (IterEvent.pull false b k) =
      (if s.frameErrors + 1 > maxFrameErrors then
        StepResult.halt .errorBudget []
       else
        StepResult.cont { s with frameErrors := s.frameErrors + 1 } []) := rfl

lemma runLoop_fail_under (b : ℚ) (k : KeyCmd) :
    ∀ (n : Nat) (s : LoopState), s.frameErrors + n ≤ maxFrameErrors →
      runLoop s (List.replicate n (IterEvent.pull false b k)) =
        (.inputEnded, []) := by
  intro n
  induction n with
  | zero => intro s _; rfl
  | succ m ih =>
      intro s hle
      have h150 : maxFrameErrors = 150 := rfl
      have hstep : runIter s (IterEvent.pull false b k) =
          StepResult.cont { s with frameErrors := s.frameErrors + 1 } [] := by
        rw [runIter_fail, if_neg (by omega)]
      rw [List.replicate_succ]
      unfold runLoop
      rw [hstep]
      dsimp only
      rw [ih { s with frameErrors := s.frameErrors + 1 } (by dsimp only; omega)]
      rfl

lemma runLoop_fail_over (b : ℚ) (k : KeyCmd) :
    ∀ (n : Nat) (s : LoopState), 1 ≤ n →
      maxFrameErrors < s.frameErrors + n →
      runLoop s (List.replicate n (IterEvent.pull false b k)) =
        (.errorBudget, []) := by
  intro n
  induction n with
  | zero => intro s h; omega
  | succ m ih =>
      intro s _ hover
      have h150 : maxFrameErrors = 150 := rfl
      rw [List.replicate_succ]
      unfold runLoop
      by_cases hb : s.frameErrors + 1 > maxFrameErrors
      · rw [runIter_fail, if_pos hb]
      · rw [runIter_fail, if_neg hb]
        dsimp only
        have hm : 1 ≤ m := by omega
        rw [ih { s with frameErrors := s.frameErrors + 1 } hm (by dsimp only; omega)]
        rfl

/-- Claim C7: in the running loop a failed frame pull increments
frame_errors and breaks out of the loop exactly when the counter exceeds
the budget of 150; every successful frame resets the counter to 0; a
single failed pull starting from a zero counter is never fatal, and 150
consecutive failed pulls end without failure while 151 fail the session. -/
theorem claim_C7_frame_error_budget :
    maxFrameErrors = 150 ∧
    (∀ (s : LoopState) (b : ℚ) (k : KeyCmd),
      runIter s (IterEvent.pull false b k) =
        (if s.frameErrors + 1 > maxFrameErrors then
          StepResult.halt .errorBudget []
         else
          StepResult.cont { s with frameErrors := s.frameErrors + 1 } [])) ∧
    (∀ (s : LoopState) (b : ℚ) (k : KeyCmd) (s1 : LoopState)
        (evs : List OutEvent),
      runIter s (IterEvent.pull true b k) = .cont s1 evs →
        s1.frameErrors = 0) ∧
    (∀ (s : LoopState) (b : ℚ) (k : KeyCmd),
      s.frameErrors = 0 →
        (runIter s (IterEvent.pull false b k)).isCont = true) ∧
    (∀ (b : ℚ) (k : KeyCmd) (s : LoopState), s.frameErrors = 0 →
      (runLoop s (List.replicate 150 (IterEvent.pull false b k))).1
        = .inputEnded) ∧
    (∀ (b : ℚ) (k : KeyCmd) (s : LoopState), s.frameErrors = 0 →
      (runLoop s (List.replicate 151 (IterEvent.pull false b k))).1
        = .errorBudget) := by
  have h150 : maxFrameErrors = 150 := rfl
  refine ⟨rfl, runIter_fail, ?_, ?_, ?_, ?_⟩
  · intro s b k s1 evs h
    unfold runIter at h
    dsimp only at h
    rw [if_pos rfl] at h
    split at h
    · injection h with h1 h2
      rw [← h1]
    · cases k <;> dsimp only at h
      case quit => exact absurd h (by simp)
      case save => injection h with h1 h2; rw [← h1]
      case toggleOcr => injection h with h1 h2; rw [← h1]
      case other => injection h with h1 h2; rw [← h1]
  · intro s b k h0
    rw [runIter_fail, if_neg (by omega)]
    rfl
  · intro b k s h0
    rw [runLoop_fail_under b k 150 s (by omega)]
  · intro b k s h0
    rw [runLoop_fail_over b k 151 s (by omega) (by omega)]

/-- Witness for claim C7: from the initial loop state, a single failed
pull continues, 150 consecutive failed pulls end without failure, and 151
exhaust the budget. -/
theorem claim_C7_frame_error_budget_witness :
    (runIter loopInit (IterEvent.pull false 0 .other)).isCont = true ∧
    (runLoop loopInit (List.replicate 150 (IterEvent.pull false 0 .other))).1
      = .inputEnded ∧
    (runLoop loopInit (List.replicate 151 (IterEvent.pull false 0 .other))).1
      = .errorBudget := by
  refine ⟨?_, ?_, ?_⟩
  · exact claim_C7_frame_error_budget.2.2.2.1 loopInit 0 .other (by decide)
  · exact claim_C7_frame_error_budget.2.2.2.2.1 0 .other loopInit (by decide)
  · exact claim_C7_frame_error_budget.2.2.2.2.2 0 .other loopInit (by decide)

lemma runIter_ok_other (s : LoopState) (b : ℚ) :
    runIter s (IterEvent.pull true b .other) =
      StepResult.cont
        (if s.successfulFrames + 1 < 10 then
          { s with
            frameErrors := 0
            successfulFrames := s.successfulFrames + 1
            blackFrameCount := (blackFrameStep s.blackFrameCount b).1 }
         else
          { s with
            frameErrors := 0
            successfulFrames := s.successfulFrames + 1
            blackFrameCount := (blackFrameStep s.blackFrameCount b).1
            frameCount := s.frameCount + 1 })
        (if (blackFrameStep s.blackFrameCount b).2 then
          [OutEvent.blackFrameWarning]
         else []) := by
  unfold runIter
  dsimp only
  rw [if_pos rfl]
  split <;> rfl

lemma runLoop_dark_count :
    ∀ (n : Nat) (s : LoopState), s.blackFrameCount ≤ 30 →
      (runLoop s (List.replicate n (IterEvent.pull true 0 .other))).2.count
          OutEvent.blackFrameWarning
        = (s.blackFrameCount + n) / 31 := by
  intro n
  induction n with
  | zero =>
      intro s hbc
      rw [Nat.div_eq_of_lt (by omega)]
      rfl
  | succ m ih =>
      intro s hbc
      rw [List.replicate_succ]
      unfold runLoop
      rw [runIter_ok_other]
      dsimp only
      rw [List.count_append]
      by_cases hdark : s.blackFrameCount = 30
      · have hbf : blackFrameStep s.blackFrameCount 0 = (0, true) := by
          rw [hdark]; decide
        rw [hbf]
        dsimp only
        rw [if_pos rfl]
        have harith : s.blackFrameCount + (m + 1) = m + 31 := by omega
        rw [harith, Nat.add_div_right _ (by omega)]
        split
        · rw [ih { s with
            frameErrors := 0
            successfulFrames := s.successfulFrames + 1
            blackFrameCount := 0 } (by dsimp only; omega)]
          simp [Nat.add_comm]
        · rw [ih { s with
            frameErrors := 0
            successfulFrames := s.successfulFrames + 1
            blackFrameCount := 0
            frameCount := s.frameCount + 1 } (by dsimp only; omega)]
          simp [Nat.add_comm]
      · have hbf : blackFrameStep s.blackFrameCount 0 =
            (s.blackFrameCount + 1, false) := by
          unfold blackFrameStep
          rw [if_pos (by norm_num), if_neg (by omega)]
        rw [hbf]
        dsimp only
        rw [if_neg (by simp)]
        have harith : s.blackFrameCount + (m + 1) =
            s.blackFrameCount + 1 + m := by omega
        rw [harith]
        split
        · rw [ih { s with
            frameErrors := 0
            successfulFrames := s.successfulFrames + 1
            blackFrameCount := s.blackFrameCount + 1 } (by dsimp only; omega)]
          simp
        · rw [ih { s with
            frameErrors := 0
            successfulFrames := s.successfulFrames + 1
            blackFrameCount := s.blackFrameCount + 1
            frameCount := s.frameCount + 1 } (by dsimp only; omega)]
          simp

/-- Claim C8: the black-frame streak counter resets to 0 on every frame
whose mean brightness is at least 10; below the threshold it increments,
and the codec warning fires exactly at the moment the streak exceeds 30,
after which the counter resets to 0 and the loop continues (a successful
dark frame never ends the loop); starting from a zero streak, 31
consecutive dark frames produce exactly one warning and 30 produce none. -/
theorem claim_C8_black_frame_streak :
    (∀ (bc : Nat) (b : ℚ), 10 ≤ b → blackFrameStep bc b = (0, false)) ∧
    (∀ (bc : Nat) (b : ℚ), b < 10 → bc + 1 ≤ 30 →
      blackFrameStep bc b = (bc + 1, false)) ∧
    (∀ (bc : Nat) (b : ℚ), b < 10 → 30 < bc + 1 →
      blackFrameStep bc b = (0, true)) ∧
    (∀ (s : LoopState) (b : ℚ),
      (runIter s (IterEvent.pull true b .other)).isCont = true) ∧
    (∀ s : LoopState, s.blackFrameCount = 0 →
      (runLoop s (List.replicate 31 (IterEvent.pull true 0 .other))).2.count
          OutEvent.blackFrameWarning = 1 ∧
      (runLoop s (List.replicate 30 (IterEvent.pull true 0 .other))).2.count
          OutEvent.blackFrameWarning = 0) := by
  refine ⟨?_, ?_, ?_, ?_, ?_⟩
  · intro bc b hge
    unfold blackFrameStep
    rw [if_neg (by push_neg; exact hge)]
  · intro bc b hlt hle
    unfold blackFrameStep
    rw [if_pos hlt, if_neg (by omega)]
  · intro bc b hlt hgt
    unfold blackFrameStep
    rw [if_pos hlt, if_pos hgt]
  · intro s b
    rw [runIter_ok_other]
    rfl
  · intro s h0
    constructor
    · rw [runLoop_dark_count 31 s (by omega), h0]
    · rw [runLoop_dark_count 30 s (by omega), h0]

/-- Witness for claim C8: concrete evaluations of the black-frame logic —
a bright frame resets the streak, a dark frame at streak 30 fires the
warning and resets, and 31 consecutive dark frames from the initial state
emit exactly one warning while 30 emit none. -/
theorem claim_C8_black_frame_streak_witness :
    blackFrameStep 7 200 = (0, false) ∧
    blackFrameStep 7 0 = (8, false) ∧
    blackFrameStep 30 0 = (0, true) ∧
    (runLoop loopInit (List.replicate 31 (IterEvent.pull true 0 .other))).2.count
        OutEvent.blackFrameWarning = 1 ∧
    (runLoop loopInit (List.replicate 30 (IterEvent.pull true 0 .other))).2.count
        OutEvent.blackFrameWarning = 0 := by
  refine ⟨?_, ?_, ?_, ?_, ?_⟩
  · exact claim_C8_black_frame_streak.1 7 200 (by norm_num)
  · exact claim_C8_black_frame_streak.2.1 7 0 (by norm_num) (by norm_num)
  · exact claim_C8_black_frame_streak.2.2.1 30 0 (by norm_num) (by norm_num)
  · exact (claim_C8_black_frame_streak.2.2.2.2 loopInit (by decide)).1
  · exact (claim_C8_black_frame_streak.2.2.2.2 loopInit (by decide)).2

/-! ## HTTP MJPEG fetch loop (http_camera_handler.py _fetch_frames) -/

/-- What one pass of the _fetch_frames while-loop observes: a chunk without
a complete JPEG marker pair, a complete JPEG that decodes to a non-empty
frame, a complete JPEG that fails to decode (imdecode returned None or
empty), an exception inside the body (counted like a decode failure), or
an empty chunk (server closed the stream). -/
inductive HttpEvent where
  | chunkNoFrame
  | frameOk
  | frameBad
  | decodeRaise
  | streamClosed
deriving DecidableEq, Repr

/-- Loop-local counters of _fetch_frames: consecutive_decode_errors, the
handler's error_count, and whether self.frame has been published. -/
structure FetchState where
  consecutiveDecodeErrors : Nat
  errorCount : Nat
  framePublished : Bool
deriving DecidableEq, Repr

/-- Why the _fetch_frames while-loop stopped. -/
inductive FetchEnd where
  | serverClosed
  | decodeThreshold
  | stopped
deriving DecidableEq, Repr

/-- The decode-failure streak threshold in _fetch_frames
(consecutive_decode_errors > 20 breaks the loop). -/
def decodeErrorThreshold : Nat := 20

/-- The _fetch_frames while-loop: a successful decode publishes the frame
and zeroes both error counters; a failed decode or an in-body exception
increments consecutive_decode_errors and breaks past the threshold; an
empty chunk breaks; the running flag going false (exhausted input here)
stops the loop. -/
def fetchLoop : FetchState → List HttpEvent → FetchState × FetchEnd
  | st, [] => (st, .stopped)
  | st, e :: es =>
      match e with
      | .chunkNoFrame => fetchLoop st es
      | .frameOk =>
          fetchLoop { st with
            consecutiveDecodeErrors := 0
            errorCount := 0
            framePublished := true } es
      | .frameBad | .decodeRaise =>
          if st.consecutiveDecodeErrors + 1 > decodeErrorThreshold then
            ({ st with
               consecutiveDecodeErrors := st.consecutiveDecodeErrors + 1 },
             .decodeThreshold)
          else
            fetchLoop { st with
              consecutiveDecodeErrors := st.consecutiveDecodeErrors + 1 } es
      | .streamClosed => (st, .serverClosed)

/-- Observable outcome of one whole _fetch_frames call. -/
structure FetchOutcome where
  streamsOpened : Nat
  ending : FetchEnd
  finalState : FetchState
  runningAfter : Bool
  streamClosedAtEnd : Bool
deriving DecidableEq, Repr

/-- A complete _fetch_frames call: urlopen is invoked exactly once before
the loop and nowhere else (the function never reconnects); the finally
block closes the stream and clears self.running whatever ended the
loop. -/
def fetchFrames (events : List HttpEvent) : FetchOutcome :=
  let r := fetchLoop
    { consecutiveDecodeErrors := 0, errorCount := 0, framePublished := false }
    events
  { streamsOpened := 1
    ending := r.2
    finalState := r.1
    runningAfter := false
    streamClosedAtEnd := true }

/-- Counterexample to claim C5 as stated: after 21 consecutive decode
failures the threshold is exceeded and the loop is torn down, but the
handler performs zero reconnects — only the single initial stream object
ever exists, so "exactly one reconnect with a new stream object" is
false. -/
theorem claim_C5_counterexample :
    (fetchFrames (List.replicate 21 HttpEvent.frameBad)).ending
        = FetchEnd.decodeThreshold ∧
    ¬ ((fetchFrames (List.replicate 21 HttpEvent.frameBad)).streamsOpened - 1
        = 1) := by decide

/-- Claim C5 (amended): when the consecutive-decode-failure counter exceeds
the threshold (20) the fetch loop terminates, the stream object is closed
and the running flag cleared, and no reconnect is performed by the handler
(the single initial stream is the only one ever opened, so the caller must
reconnect); the counter resets to 0 on every successful decode. -/
theorem claim_C5_decode_failure_teardown :
    decodeErrorThreshold = 20 ∧
    (∀ (st : FetchState) (es : List HttpEvent),
      decodeErrorThreshold < st.consecutiveDecodeErrors + 1 →
        fetchLoop st (HttpEvent.frameBad :: es) =
          ({ st with
             consecutiveDecodeErrors := st.consecutiveDecodeErrors + 1 },
           FetchEnd.decodeThreshold)) ∧
    (∀ (st : FetchState) (es : List HttpEvent),
      fetchLoop st (HttpEvent.frameOk :: es) =
        fetchLoop { st with
          consecutiveDecodeErrors := 0
          errorCount := 0
          framePublished := true } es) ∧
    (∀ events : List HttpEvent,
      (fetchFrames events).streamsOpened = 1 ∧
      (fetchFrames events).runningAfter = false ∧
      (fetchFrames events).streamClosedAtEnd = true) := by
  refine ⟨rfl, ?_, ?_, ?_⟩
  · intro st es hover
    unfold fetchLoop
    rw [if_pos (by omega)]
  · intro st es
    rfl
  · intro events
    exact ⟨rfl, rfl, rfl⟩

/-- Witness for the amended claim C5: a concrete state one step short of
the threshold halts the loop on the next decode failure. -/
theorem claim_C5_decode_failure_teardown_witness :
    fetchLoop
        { consecutiveDecodeErrors := 20, errorCount := 0,
          framePublished := true }
        [HttpEvent.frameBad] =
      ({ consecutiveDecodeErrors := 21, errorCount := 0,
         framePublished := true },
       FetchEnd.decodeThreshold) := by
  exact claim_C5_decode_failure_teardown.2.1
    { consecutiveDecodeErrors := 20, errorCount := 0, framePublished := true }
    [] (by decide)

/-! ## Streaming-URL connection fallback (main.py _try_rtsp_connection,
_convert_rtsp_to_http, and the RTSP branch of run) -/

/-- The two transport variants tried by _try_rtsp_connection, in order. -/
inductive Transport where
  | udp
  | tcp
deriving DecidableEq, Repr

/-- Number of probe reads per transport in _try_rtsp_connection
(for attempt in range(5)). -/
def probeAttempts : Nat := 5

/-- Wait after an unsuccessful probe read, in seconds (time.sleep(0.2)). -/
def probeSleepSeconds : ℚ := 1 / 5

/-- The URL handed to the TCP variant: the rtsp scheme rewritten to
rtsp_tcp (url.replace in the transports table). -/
def tcpVariantUrl (url : String) : String :=
  url.replace "rtsp://" "rtsp_tcp://"

/-- Whether a transport's bounded probe loop sees a non-empty decoded
frame: reads i tells whether probe read i returned a valid frame. -/
def probeSucceeds (reads : Nat → Bool) : Bool :=
  (List.range probeAttempts).any reads

/-- _try_rtsp_connection: try UDP then TCP against the URL, each with
probeAttempts probe reads, returning the first transport that yields a
non-empty frame, else nothing. -/
def tryRtspConnection (udpReads tcpReads : Nat → Bool) : Option Transport :=
  if probeSucceeds udpReads then some .udp
  else if probeSucceeds tcpReads then some .tcp
  else none

/-- _convert_rtsp_to_http: the fixed ordered HTTP candidate URLs derived
from the RTSP URL's host and port. -/
def convertRtspToHttp (host port : String) : List String :=
  ["http://" ++ host ++ ":" ++ port ++ "/video",
   "http://" ++ host ++ ":" ++ port ++ "/mjpegfeed",
   "http://" ++ host ++ ":" ++ port ++ "/stream"]

/-- How the RTSP branch of run ends up connected (or not). -/
inductive ConnectOutcome where
  | rtsp (t : Transport)
  | http (url : String)
  | failed
deriving DecidableEq, Repr

/-- The connection phase of run for a streaming (rtsp) URL with the given
host and port: first _try_rtsp_connection over both transports, then, only
on its failure, the HTTP candidates in order, connecting via the first
whose handler starts; httpStart tells which candidate URLs start
successfully. -/
def connectStreaming (host port : String) (udpReads tcpReads : Nat → Bool)
    (httpStart : String → Bool) : ConnectOutcome :=
  match tryRtspConnection udpReads tcpReads with
  | some t => .rtsp t
  | none =>
      match (convertRtspToHttp host port).find? httpStart with
      | some u => .http u
      | none => .failed

/-- Observable result of the whole streaming-URL session setup in run. -/
structure StreamSessionResult where
  outcome : ConnectOutcome
  suggestionPrinted : Bool
  loopEntered : Bool
deriving DecidableEq, Repr

/-- The streaming-URL branch of run: a failed connection prints the
_suggest_http_fallback diagnostic and returns without entering the main
loop (no retry within the session); any successful outcome enters the
loop. -/
def streamingSession (host port : String) (udpReads tcpReads : Nat → Bool)
    (httpStart : String → Bool) : StreamSessionResult :=
  match connectStreaming host port udpReads tcpReads httpStart with
  | .failed => { outcome := .failed, suggestionPrinted := true,
                 loopEntered := false }
  | o => { outcome := o, suggestionPrinted := false, loopEntered := true }

/-- Claim C6: a streaming URL is resolved by probing the UDP then the TCP
transport variant, each with 5 bounded probe reads and a 0.2 s wait per
probe, promoting on the first variant with a non-empty frame; only when
both variants fail are the HTTP candidates — host:port with the path
suffixes /video, /mjpegfeed, /stream, in that order — derived, connecting
via the first whose handler starts; and when every candidate fails the
session ends failed with the suggestion diagnostic and never enters the
loop. -/
theorem claim_C6_streaming_fallback_order :
    probeAttempts = 5 ∧ probeSleepSeconds = 1 / 5 ∧
    (∀ host port : String,
      convertRtspToHttp host port =
        ["http://" ++ host ++ ":" ++ port ++ "/video",
         "http://" ++ host ++ ":" ++ port ++ "/mjpegfeed",
         "http://" ++ host ++ ":" ++ port ++ "/stream"]) ∧
    (∀ (host port : String) (udpReads tcpReads : Nat → Bool)
        (httpStart : String → Bool),
      probeSucceeds udpReads = true →
        connectStreaming host port udpReads tcpReads httpStart
          = .rtsp .udp) ∧
    (∀ (host port : String) (udpReads tcpReads : Nat → Bool)
        (httpStart : String → Bool),
      probeSucceeds udpReads = false → probeSucceeds tcpReads = true →
        connectStreaming host port udpReads tcpReads httpStart
          = .rtsp .tcp) ∧
    (∀ (host port : String) (udpReads tcpReads : Nat → Bool)
        (httpStart : String → Bool),
      probeSucceeds udpReads = false → probeSucceeds tcpReads = false →
        connectStreaming host port udpReads tcpReads httpStart =
          (match (convertRtspToHttp host port).find? httpStart with
           | some u => .http u
           | none => .failed)) ∧
    (∀ (host port : String) (udpReads tcpReads : Nat → Bool)
        (httpStart : String → Bool),
      connectStreaming host port udpReads tcpReads httpStart = .failed →
        streamingSession host port udpReads tcpReads httpStart =
          { outcome := .failed, suggestionPrinted := true,
            loopEntered := false }) := by
  refine ⟨rfl, rfl, fun _ _ => rfl, ?_, ?_, ?_, ?_⟩
  · intro host port u t hs hu
    unfold connectStreaming tryRtspConnection
    rw [if_pos hu]
  · intro host port u t hs hu ht
    unfold connectStreaming tryRtspConnection
    rw [if_neg (by simp [hu]), if_pos ht]
  · intro host port u t hs hu ht
    unfold connectStreaming tryRtspConnection
    rw [if_neg (by simp [hu]), if_neg (by simp [ht])]
  · intro host port u t hs hfail
    unfold streamingSession
    rw [hfail]

/-- Witness for claim C6: with a UDP probe succeeding on the third read
the connection is UDP; with both transports failing every probe and only
the /mjpegfeed candidate starting, the connection is the second HTTP
candidate; with everything failing the session prints the suggestion and
never enters the loop. -/
theorem claim_C6_streaming_fallback_order_witness :
    connectStreaming "192.168.0.107" "8080" (fun i => i == 2)
        (fun _ => false) (fun _ => false)
      = ConnectOutcome.rtsp Transport.udp ∧
    connectStreaming "192.168.0.107" "8080" (fun _ => false)
        (fun _ => false) (fun u => u == "http://192.168.0.107:8080/mjpegfeed")
      = ConnectOutcome.http "http://192.168.0.107:8080/mjpegfeed" ∧
    streamingSession "192.168.0.107" "8080" (fun _ => false)
        (fun _ => false) (fun _ => false) =
      { outcome := ConnectOutcome.failed, suggestionPrinted := true,
        loopEntered := false } := by
  refine ⟨?_, ?_, ?_⟩
  · exact claim_C6_streaming_fallback_order.2.2.2.1 "192.168.0.107" "8080"
      (fun i => i == 2) (fun _ => false) (fun _ => false) (by decide)
  · have h := claim_C6_streaming_fallback_order.2.2.2.2.2.1 "192.168.0.107"
      "8080" (fun _ => false) (fun _ => false)
      (fun u => u == "http://192.168.0.107:8080/mjpegfeed")
      (by decide) (by decide)
    rw [h]
    rfl
  · refine claim_C6_streaming_fallback_order.2.2.2.2.2.2 "192.168.0.107"
      "8080" (fun _ => false) (fun _ => false) (fun _ => false) ?_
    have h := claim_C6_streaming_fallback_order.2.2.2.2.2.1 "192.168.0.107"
      "8080" (fun _ => false) (fun _ => false) (fun _ => false)
      (by decide) (by decide)
    rw [h]
    rfl

/-! ## get_frame copy semantics (main.py ThreadedCameraReader.get_frame,
http_camera_handler.py HTTPCameraHandler.get_frame) -/

/-- A frame's pixel buffer. -/
abbrev Buffer := List Nat

/-- A heap of frame buffers addressed by allocation order, so that
aliasing between numpy arrays is explicit: self.frame holds an address,
and .copy() allocates a fresh address with equal contents. -/
structure Heap where
  bufs : Nat → Buffer
  next : Nat

/-- Allocate a fresh buffer (numpy array creation / .copy()). -/
def Heap.alloc (h : Heap) (b : Buffer) : Nat × Heap :=
  (h.next,
   { bufs := fun a => if a = h.next then b else h.bufs a
     next := h.next + 1 })

/-- Overwrite the buffer at an address (in-place mutation of an array). -/
def Heap.write (h : Heap) (a : Nat) (b : Buffer) : Heap :=
  { h with bufs := fun x => if x = a then b else h.bufs x }

/-- The reader-visible state: the address self.frame points to, or none
before the capture thread has published anything. -/
structure ReaderState where
  latestFrame : Option Nat

/-- The capture thread publishing a newly decoded frame: allocate it and
point self.frame at it. -/
def publishFrame (r : ReaderState) (h : Heap) (b : Buffer) :
    ReaderState × Heap :=
  let res := h.alloc b
  ({ latestFrame := some res.1 }, res.2)

/-- ThreadedCameraReader.get_frame: if self.frame is None return
(False, None); otherwise return (True, self.frame.copy()) — a freshly
allocated buffer with the same contents. -/
def threadedReaderGetFrame (r : ReaderState) (h : Heap) :
    (Bool × Option Nat) × Heap :=
  match r.latestFrame with
  | some a =>
      let res := h.alloc (h.bufs a)
      ((true, some res.1), res.2)
  | none => ((false, none), h)

/-- HTTPCameraHandler.get_frame: additionally requires self.frame.size > 0
before returning the copy. -/
def httpHandlerGetFrame (r : ReaderState) (h : Heap) :
    (Bool × Option Nat) × Heap :=
  match r.latestFrame with
  | some a =>
      if 0 < (h.bufs a).length then
        let res := h.alloc (h.bufs a)
        ((true, some res.1), res.2)
      else ((false, none), h)
  | none => ((false, none), h)

/-- Claim C9: before any frame is published both get_frame variants return
(False, None) and leave the heap unchanged; once a frame at a valid
address is published (for the HTTP handler, a non-empty one — the fetch
thread only publishes frames with size > 0), get_frame returns (True, c)
where c is a fresh address holding equal contents, and writing through c
leaves the stored latest frame's contents untouched. -/
theorem claim_C9_get_frame_copy :
    (∀ (r : ReaderState) (h : Heap), r.latestFrame = none →
      threadedReaderGetFrame r h = ((false, none), h) ∧
      httpHandlerGetFrame r h = ((false, none), h)) ∧
    (∀ (r : ReaderState) (h : Heap) (a : Nat),
      r.latestFrame = some a → a < h.next →
      (threadedReaderGetFrame r h).1 = (true, some h.next) ∧
      (threadedReaderGetFrame r h).2.bufs h.next = h.bufs a ∧
      (∀ nb : Buffer,
        (((threadedReaderGetFrame r h).2.write h.next nb).bufs a
          = h.bufs a))) ∧
    (∀ (r : ReaderState) (h : Heap) (a : Nat),
      r.latestFrame = some a → a < h.next → 0 < (h.bufs a).length →
      (httpHandlerGetFrame r h).1 = (true, some h.next) ∧
      (httpHandlerGetFrame r h).2.bufs h.next = h.bufs a ∧
      (∀ nb : Buffer,
        (((httpHandlerGetFrame r h).2.write h.next nb).bufs a
          = h.bufs a))) := by
  refine ⟨?_, ?_, ?_⟩
  · intro r h hnone
    unfold threadedReaderGetFrame httpHandlerGetFrame
    rw [hnone]
    exact ⟨rfl, rfl⟩
  · intro r h a hsome hlt
    have hne : a ≠ h.next := Nat.ne_of_lt hlt
    unfold threadedReaderGetFrame
    rw [hsome]
    refine ⟨rfl, ?_, ?_⟩
    · dsimp only [Heap.alloc]
      rw [if_pos rfl]
    · intro nb
      dsimp only [Heap.alloc, Heap.write]
      rw [if_neg hne, if_neg hne]
  · intro r h a hsome hlt hlen
    have hne : a ≠ h.next := Nat.ne_of_lt hlt
    unfold httpHandlerGetFrame
    rw [hsome]
    dsimp only
    rw [if_pos hlen]
    refine ⟨rfl, ?_, ?_⟩
    · dsimp only [Heap.alloc]
      rw [if_pos rfl]
    · intro nb
      dsimp only [Heap.alloc, Heap.write]
      rw [if_neg hne, if_neg hne]

/-- Witness for claim C9: a concrete heap with one published frame [7, 7]
at address 0 — get_frame yields the copy at address 1 with equal contents,
and overwriting the copy leaves the original in place; an unpublished
reader returns (False, None). -/
theorem claim_C9_get_frame_copy_witness :
    (threadedReaderGetFrame { latestFrame := none }
      { bufs := fun _ => [], next := 0 }).1 = (false, none) ∧
    (threadedReaderGetFrame { latestFrame := some 0 }
      { bufs := fun a => if a = 0 then [7, 7] else [], next := 1 }).1
        = (true, some 1) ∧
    ((threadedReaderGetFrame { latestFrame := some 0 }
      { bufs := fun a => if a = 0 then [7, 7] else [], next := 1 }).2.write
        1 [9]).bufs 0 = [7, 7] ∧
    (httpHandlerGetFrame { latestFrame := some 0 }
      { bufs := fun a => if a = 0 then [7, 7] else [], next := 1 }).1
        = (true, some 1) := by
  refine ⟨?_, ?_, ?_, ?_⟩
  · exact congrArg Prod.fst ((claim_C9_get_frame_copy.1
      { latestFrame := none } { bufs := fun _ => [], next := 0 } rfl).1)
  · exact (claim_C9_get_frame_copy.2.1 { latestFrame := some 0 }
      { bufs := fun a => if a = 0 then [7, 7] else [], next := 1 } 0
      rfl (by decide)).1
  · have h := (claim_C9_get_frame_copy.2.1 { latestFrame := some 0 }
      { bufs := fun a => if a = 0 then [7, 7] else [], next := 1 } 0
      rfl (by decide)).2.2 [9]
    simpa using h
  · exact (claim_C9_get_frame_copy.2.2 { latestFrame := some 0 }
      { bufs := fun a => if a = 0 then [7, 7] else [], next := 1 } 0
      rfl (by decide) (by simp)).1

/-! ## Face store (face_recognition_module.py: known_face_encodings,
known_face_names, add_face, save_encodings, load_encodings,
recognize_faces) -/

/-- A face embedding vector (numpy array of floats, embedded as
rationals). -/
abbrev Encoding := List ℚ

/-- The persistent part of FaceRecognitionSystem:
known_face_encodings and known_face_names. -/
structure FaceStore where
  knownFaceEncodings : List Encoding
  knownFaceNames : List String
deriving DecidableEq, Repr

/-- FaceRecognitionSystem.add_face: append the encoding and the name
(and save, which does not change the in-memory lists). -/
def addFace (s : FaceStore) (e : Encoding) (name : String) : FaceStore :=
  { knownFaceEncodings := s.knownFaceEncodings ++ [e]
    knownFaceNames := s.knownFaceNames ++ [name] }

/-- The record save_encodings pickles: both lists of the same store,
written together. -/
structure SavedRecord where
  encodings : List Encoding
  names : List String
deriving DecidableEq, Repr

/-- FaceRecognitionSystem.save_encodings: dump both lists into one
record. -/
def saveEncodings (s : FaceStore) : SavedRecord :=
  { encodings := s.knownFaceEncodings, names := s.knownFaceNames }

/-- FaceRecognitionSystem.load_encodings on an existing file: read both
lists back from the one saved record. -/
def loadEncodings (r : SavedRecord) : FaceStore :=
  { knownFaceEncodings := r.encodings, knownFaceNames := r.names }

/-- Python's min over a non-empty list d0 :: rest of distances. -/
def minDistance (d0 : ℚ) (rest : List ℚ) : ℚ :=
  rest.foldl min d0

/-- distances.index(min_distance): the first position holding the minimum
of the non-empty distance list d0 :: rest. -/
def bestMatchIndex (d0 : ℚ) (rest : List ℚ) : Nat :=
  (d0 :: rest).indexOf (minDistance d0 rest)

/-- FaceRecognitionSystem.recognize_faces: for each face encoding, if no
known encodings exist the name is UNKNOWN; otherwise take the known name
at the index of the minimum distance when that distance beats the
threshold, else UNKNOWN. The distance function (np.linalg.norm of the
difference) is an opaque numeric capability. -/
def recognizeFaces (dist : Encoding → Encoding → ℚ) (s : FaceStore)
    (threshold : ℚ) (faceEncodings : List Encoding) : List String :=
  faceEncodings.map fun fe =>
    match s.knownFaceEncodings with
    | [] => "UNKNOWN"
    | k0 :: ks =>
        let d0 := dist fe k0
        let rest := ks.map (fun ke => dist fe ke)
        if minDistance d0 rest < threshold then
          ((s.knownFaceNames.get? (bestMatchIndex d0 rest)).getD
            "INDEX_ERROR")
        else "UNKNOWN"

lemma minDistance_mem (rest : List ℚ) :
    ∀ d0 : ℚ, minDistance d0 rest ∈ d0 :: rest := by
  induction rest with
  | nil => intro d0; simp [minDistance]
  | cons x xs ih =>
      intro d0
      have h := ih (min d0 x)
      rcases List.mem_cons.mp h with h0 | hx
      · rcases min_choice d0 x with hc | hc
        · simp only [minDistance, List.foldl_cons] at *
          rw [h0, hc]
          exact List.mem_cons_self _ _
        · simp only [minDistance, List.foldl_cons] at *
          rw [h0, hc]
          exact List.mem_cons_of_mem _ (List.mem_cons_self _ _)
      · simp only [minDistance, List.foldl_cons]
        exact List.mem_cons_of_mem _ (List.mem_cons_of_mem _ hx)

lemma bestMatchIndex_lt (d0 : ℚ) (rest : List ℚ) :
    bestMatchIndex d0 rest < rest.length + 1 := by
  have hmem := minDistance_mem rest d0
  have h := List.indexOf_lt_length.mpr hmem
  simpa [bestMatchIndex] using h

/-- Claim C10: add_face appends exactly one element to each list and
load_encodings restores the two lists saved together, so the equal-length
invariant of known_face_encodings and known_face_names is preserved by
every operation; under that invariant the minimum-distance index used by
recognize_faces is always a valid index into known_face_names (every
returned name is UNKNOWN or one of the known names, never an index
error), and recognize_faces returns exactly one name per input
encoding. -/
theorem claim_C10_store_invariant :
    (∀ (s : FaceStore) (e : Encoding) (name : String),
      (addFace s e name).knownFaceEncodings
          = s.knownFaceEncodings ++ [e] ∧
      (addFace s e name).knownFaceNames = s.knownFaceNames ++ [name]) ∧
    (∀ (s : FaceStore) (e : Encoding) (name : String),
      s.knownFaceEncodings.length = s.knownFaceNames.length →
        (addFace s e name).knownFaceEncodings.length
          = (addFace s e name).knownFaceNames.length) ∧
    (∀ s : FaceStore, loadEncodings (saveEncodings s) = s) ∧
    (∀ (dist : Encoding → Encoding → ℚ) (s : FaceStore) (threshold : ℚ)
        (faceEncodings : List Encoding),
      (recognizeFaces dist s threshold faceEncodings).length
        = faceEncodings.length) ∧
    (∀ (fe k0 : Encoding) (ks : List Encoding)
        (dist : Encoding → Encoding → ℚ),
      bestMatchIndex (dist fe k0) (ks.map (fun ke => dist fe ke))
        < (k0 :: ks).length) ∧
    (∀ (dist : Encoding → Encoding → ℚ) (s : FaceStore) (threshold : ℚ)
        (faceEncodings : List Encoding),
      s.knownFaceEncodings.length = s.knownFaceNames.length →
      ∀ name ∈ recognizeFaces dist s threshold faceEncodings,
        name = "UNKNOWN" ∨ name ∈ s.knownFaceNames) := by
  refine ⟨fun s e name => ⟨rfl, rfl⟩, ?_, fun s => rfl, ?_, ?_, ?_⟩
  · intro s e name hlen
    simp [addFace, hlen]
  · intro dist s threshold faceEncodings
    simp [recognizeFaces]
  · intro fe k0 ks dist
    have h := bestMatchIndex_lt (dist fe k0) (ks.map (fun ke => dist fe ke))
    simpa using h
  · intro dist s threshold faceEncodings hlen name hmem
    unfold recognizeFaces at hmem
    rcases List.mem_map.mp hmem with ⟨fe, _, hfe⟩
    rcases hk : s.knownFaceEncodings with _ | ⟨k0, ks⟩
    · rw [hk] at hfe
      exact Or.inl hfe.symm
    · rw [hk] at hfe
      dsimp only at hfe
      split at hfe
      · have hidx : bestMatchIndex (dist fe k0)
            (ks.map (fun ke => dist fe ke)) < s.knownFaceNames.length := by
          have h := bestMatchIndex_lt (dist fe k0)
            (ks.map (fun ke => dist fe ke))
          have hlk : s.knownFaceEncodings.length = ks.length + 1 := by
            rw [hk]; simp
          simp only [List.length_map] at h
          omega
        rcases List.get?_eq_get hidx with hget
        rw [hget] at hfe
        simp only [Option.getD_some] at hfe
        exact Or.inr (hfe ▸ List.get_mem _ _ _)
      · exact Or.inl hfe.symm

/-- Witness for claim C10: a concrete store with two known faces — adding
a third preserves the equal lengths, recognition of two probes returns two
names, and both are drawn from the known names or UNKNOWN. -/
theorem claim_C10_store_invariant_witness :
    (addFace { knownFaceEncodings := [[0], [1]],
               knownFaceNames := ["ana", "li"] } [2] "zoe"
      ).knownFaceEncodings.length =
    (addFace { knownFaceEncodings := [[0], [1]],
               knownFaceNames := ["ana", "li"] } [2] "zoe"
      ).knownFaceNames.length ∧
    (recognizeFaces (fun a b => |(a.headD 0) - (b.headD 0)|)
        { knownFaceEncodings := [[0], [1]], knownFaceNames := ["ana", "li"] }
        (1 / 2) [[0], [9]]).length = 2 ∧
    (∀ name ∈ recognizeFaces (fun a b => |(a.headD 0) - (b.headD 0)|)
        { knownFaceEncodings := [[0], [1]], knownFaceNames := ["ana", "li"] }
        (1 / 2) [[0], [9]],
      name = "UNKNOWN" ∨ name ∈ ["ana", "li"]) := by
  refine ⟨?_, ?_, ?_⟩
  · exact claim_C10_store_invariant.2.1
      { knownFaceEncodings := [[0], [1]], knownFaceNames := ["ana", "li"] }
      [2] "zoe" (by decide)
  · exact claim_C10_store_invariant.2.2.2.1
      (fun a b => |(a.headD 0) - (b.headD 0)|)
      { knownFaceEncodings := [[0], [1]], knownFaceNames := ["ana", "li"] }
      (1 / 2) [[0], [9]]
  · exact claim_C10_store_invariant.2.2.2.2.2
      (fun a b => |(a.headD 0) - (b.headD 0)|)
      { knownFaceEncodings := [[0], [1]], knownFaceNames := ["ana", "li"] }
      (1 / 2) [[0], [9]] (by decide)

end WraithCam
